import Mathlib

/-!
Verification of the SmartTrade content-pipeline core: a shallow embedding of
`src/agents/scheduler.py` (SchedulerAgent) and `src/workflow.py`
(ContentWorkflow), with theorems settling the frozen claims about
scheduling-conflict invariants, slot allocation, retry handling,
cancellation, pipeline admission control, run history and metrics.

Modelling conventions:
  * instants are natural numbers counting minutes since an arbitrary epoch
    (a calendar day is 1440 minutes; `now / 1440` is the current day,
    `now % 1440` the time of day), matching the minute granularity at which
    the source compares datetimes;
  * Python dicts keyed by job/run id become association lists
    (`List (String × _)`) with insert/erase/lookup helpers;
  * the APScheduler job registry is modelled as the list of registered job
    ids (`add_job` with `replace_existing` inserts if absent, `remove_job`
    filters); cron re-firing is not modelled — jobs fire when the embedded
    `execute_scheduled_publishing` is applied;
  * opaque payloads (content dicts, trend items) are represented by `ℕ`
    tokens; bookkeeping fields of queue items that no operation ever reads
    back (`last_error`, `failed_at`, `publishing_started_at`, `platforms`)
    are omitted;
  * the external stage collaborators invoked by `workflow.py` (trend
    researcher, content developer, editor, distribution/scheduler agents)
    enter the model as an explicit environment of response functions, as the
    spec's §6 interfaces prescribe; wall-clock reads (`datetime.utcnow()`)
    become explicit `now`/duration parameters.
-/

namespace SmartTrade

open scoped List

/-! ## Scheduler data model (src/agents/scheduler.py) -/

/-- Status strings a queue item can carry in `scheduler.py`. -/
inductive Status where
  | scheduled
  | publishing
  | published
  | retry_scheduled
  | failed
deriving DecidableEq, Repr

/-- One entry of `self.content_queue` (the dict built in `schedule_content`).
`content` is the opaque payload, times are minutes since the epoch. -/
structure QueuedContent where
  job_id : String
  content : ℕ
  scheduled_time : ℕ
  status : Status
  created_at : ℕ
  retry_count : ℕ
deriving DecidableEq, Repr

/-- Association-list lookup for dict-like state (`scheduled_posts`,
`active_jobs`). -/
def lookupA {α : Type} (l : List (String × α)) (k : String) : Option α :=
  (l.find? (fun p => decide (p.1 = k))).map (fun p => p.2)

/-- Dict assignment `d[k] = v`: replace the binding if present, else append. -/
def insertA {α : Type} (l : List (String × α)) (k : String) (v : α) :
    List (String × α) :=
  if (l.find? (fun p => decide (p.1 = k))).isSome then
    l.map (fun p => if p.1 = k then (k, v) else p)
  else l ++ [(k, v)]

/-- Dict deletion `del d[k]` (no-op when the key is absent, callers guard). -/
def eraseA {α : Type} (l : List (String × α)) (k : String) :
    List (String × α) :=
  l.filter (fun p => !decide (p.1 = k))

/-- `schedule_config["daily_times"] = ["09:00", "12:00", "17:00"]` as
minutes past midnight. -/
def dailyTimes : List ℕ := [540, 720, 1020]

/-- `schedule_config["max_queue_size"]`. -/
def maxQueueSize : ℕ := 50

/-- `schedule_config["retry_attempts"]`. -/
def retryAttempts : ℕ := 3

/-- `schedule_config["retry_delay_minutes"]`. -/
def retryDelayMinutes : ℕ := 30

/-- The 30-minute `slot_window` of `is_slot_occupied`. -/
def slotWindow : ℕ := 30

/-- The 30-day scheduling horizon of `check_scheduling_conflicts`, minutes. -/
def schedulingHorizon : ℕ := 30 * 1440

/-- Scheduler state: the four tracked collections plus the APScheduler
registry (`self.scheduler`'s job ids). -/
structure SchedulerState where
  content_queue : List QueuedContent
  scheduled_posts : List (String × QueuedContent)
  failed_posts : List QueuedContent
  publishing_history : List QueuedContent
  timers : List String
deriving DecidableEq, Repr

/-- The freshly constructed `SchedulerAgent` state. -/
def initialSchedulerState : SchedulerState :=
  { content_queue := [], scheduled_posts := [], failed_posts := []
    publishing_history := [], timers := [] }

/-- `scheduler.add_job(..., id=jid, replace_existing=True)` on the registry:
re-registering an existing id replaces it (same id, so the id set is
unchanged), a new id is appended. -/
def addTimer (ts : List String) (jid : String) : List String :=
  if jid ∈ ts then ts else ts ++ [jid]

/-- `is_slot_occupied`: some `scheduled` item lies strictly within the
30-minute window of the candidate instant. -/
def is_slot_occupied (q : List QueuedContent) (slot_time : ℕ) : Bool :=
  q.any (fun c =>
    decide (c.status = Status.scheduled) &&
    decide (Nat.dist c.scheduled_time slot_time < slotWindow))

/-- The daily anchors of a given day, as instants. -/
def anchorsOn (day : ℕ) : List ℕ := dailyTimes.map (fun a => day * 1440 + a)

/-- `find_next_available_slot`: remaining anchors today (strictly future and
free), then tomorrow's anchors (free), then the anchors of the next 7 days
(the `for _ in range(7)` week loop), then the `now + 1 hour` fallback. -/
def find_next_available_slot (q : List QueuedContent) (now : ℕ) : ℕ :=
  let today := now / 1440
  match (anchorsOn today).find?
      (fun s => decide (now < s) && !is_slot_occupied q s) with
  | some s => s
  | none =>
    match (anchorsOn (today + 1)).find? (fun s => !is_slot_occupied q s) with
    | some s => s
    | none =>
      match ((List.range 7).flatMap (fun k => anchorsOn (today + 2 + k))).find?
          (fun s => !is_slot_occupied q s) with
      | some s => s
      | none => now + 60

/-- `check_scheduling_conflicts`: `none` means available, `some reason`
carries the distinct reason string of the first failing check. -/
def check_scheduling_conflicts (s : SchedulerState) (now publish_time : ℕ) :
    Option String :=
  if publish_time ≤ now then
    some "Cannot schedule content in the past"
  else if is_slot_occupied s.content_queue publish_time then
    some "Time slot already occupied"
  else if now + schedulingHorizon < publish_time then
    some "Cannot schedule more than 30 days in advance"
  else if maxQueueSize ≤ s.content_queue.length then
    some "Content queue is full"
  else
    none

/-- The `schedule_time` argument of `schedule_content`: omitted, an
unparseable string, or a string parsing to an instant. -/
inductive TimeSpec where
  | auto
  | invalid
  | fixedTime (t : ℕ)
deriving DecidableEq, Repr

/-- The publish time `schedule_content` resolves for a request (provided
time, or the slot allocator's choice); `invalid` never reaches this point. -/
def resolveTime (s : SchedulerState) (now : ℕ) : TimeSpec → ℕ
  | .auto => find_next_available_slot s.content_queue now
  | .fixedTime t => t
  | .invalid => 0

/-- The response dicts built by `create_response` in `scheduler.py`,
one shape per endpoint. -/
inductive SchedResponse where
  | ok (job_id : String) (scheduled_time : ℕ) (queue_position : ℕ)
  | okCancel (job_id : String)
      (removed_from_scheduler removed_from_queue removed_from_scheduled : Bool)
  | okRetry (retried_count : ℕ)
  | okMessage (msg : String)
  | error (msg : String)
deriving DecidableEq, Repr

/-- Is the response a `create_response(True, ...)`? -/
def SchedResponse.isSuccess : SchedResponse → Bool
  | .error _ => false
  | _ => true

/-- `schedule_content(content, schedule_time)`: validate the content and the
time, run conflict detection, then append the item, register its timer and
record it in `scheduled_posts`. `job_id` stands for the generated uuid. -/
def schedule_content (s : SchedulerState) (now : ℕ) (job_id : String)
    (content : Option ℕ) (ts : TimeSpec) : SchedulerState × SchedResponse :=
  match content with
  | none => (s, .error "No content provided for scheduling")
  | some payload =>
    let accept : ℕ → SchedulerState × SchedResponse := fun publish_time =>
      match check_scheduling_conflicts s now publish_time with
      | some reason => (s, .error ("Scheduling conflict: " ++ reason))
      | none =>
        let item : QueuedContent :=
          { job_id := job_id, content := payload
            scheduled_time := publish_time, status := Status.scheduled
            created_at := now, retry_count := 0 }
        ({ s with
            content_queue := s.content_queue ++ [item]
            timers := addTimer s.timers job_id
            scheduled_posts := insertA s.scheduled_posts job_id item },
         .ok job_id publish_time (s.content_queue.length + 1))
    match ts with
    | .invalid => (s, .error "Invalid schedule time format")
    | .fixedTime t => accept t
    | .auto => accept (find_next_available_slot s.content_queue now)

/-- Replace the (unique) queue entry carrying `jid`; Python mutates the
found dict in place, which under distinct job ids is this map. -/
def updateJob (q : List QueuedContent) (jid : String) (item : QueuedContent) :
    List QueuedContent :=
  q.map (fun c => if c.job_id = jid then item else c)

/-- `handle_publishing_failure`: mark failed, bump `retry_count`; below the
retry budget register a retry timer and keep the item as `retry_scheduled`,
otherwise move it to `failed_posts` and drop it from the queue and from
`scheduled_posts`. -/
def handle_publishing_failure (s : SchedulerState) (jid : String) :
    SchedulerState :=
  match s.content_queue.find? (fun c => decide (c.job_id = jid)) with
  | none => s
  | some item =>
    let item1 := { item with status := Status.failed
                             retry_count := item.retry_count + 1 }
    if item1.retry_count < retryAttempts then
      { s with
          content_queue := updateJob s.content_queue jid
            { item1 with status := Status.retry_scheduled }
          timers := addTimer s.timers
            (jid ++ "_retry_" ++ toString item1.retry_count) }
    else
      { s with
          failed_posts := s.failed_posts ++ [item1]
          content_queue := s.content_queue.filter
            (fun c => !decide (c.job_id = jid))
          scheduled_posts := eraseA s.scheduled_posts jid }

/-- `execute_scheduled_publishing(job_id)` with the publish collaborator's
outcome supplied as `publishOk`: missing job logs and returns; otherwise the
item passes through `publishing` and then either moves to the publish
history or into the failure handler. -/
def execute_scheduled_publishing (s : SchedulerState) (jid : String)
    (publishOk : Bool) : SchedulerState :=
  match s.content_queue.find? (fun c => decide (c.job_id = jid)) with
  | none => s
  | some item =>
    let item1 := { item with status := Status.publishing }
    let s1 := { s with content_queue := updateJob s.content_queue jid item1 }
    if publishOk then
      let item2 := { item1 with status := Status.published }
      { s1 with
          publishing_history := s1.publishing_history ++ [item2]
          content_queue := s1.content_queue.filter
            (fun c => !decide (c.job_id = jid))
          scheduled_posts := eraseA s1.scheduled_posts jid }
    else
      handle_publishing_failure s1 jid

/-- `cancel_scheduled_post(job_id)`: best-effort removal from the timer
registry, the live queue and `scheduled_posts`; success iff any of the three
held the job. An empty (falsy) job id is rejected up front. -/
def cancel_scheduled_post (s : SchedulerState) (job_id : String) :
    SchedulerState × SchedResponse :=
  if job_id = "" then (s, .error "No job ID provided")
  else
    let scheduler_removed := decide (job_id ∈ s.timers)
    let timers1 := s.timers.filter (fun t => !decide (t = job_id))
    let queue1 := s.content_queue.filter (fun c => !decide (c.job_id = job_id))
    let queue_removed := decide (queue1.length < s.content_queue.length)
    let scheduled_removed := (lookupA s.scheduled_posts job_id).isSome
    let s1 := { s with timers := timers1, content_queue := queue1
                       scheduled_posts := eraseA s.scheduled_posts job_id }
    if scheduler_removed || queue_removed || scheduled_removed then
      (s1, .okCancel job_id scheduler_removed queue_removed scheduled_removed)
    else
      (s1, .error ("Job " ++ job_id ++ " not found in any scheduling system"))

/-- One iteration of the `retry_failed_posts` loop: reset the item, give it
a fresh slot against the current queue, append it and register the manual
retry timer. -/
def retryStep (now : ℕ) (acc : SchedulerState) (fp : QueuedContent) :
    SchedulerState :=
  let slot := find_next_available_slot acc.content_queue now
  let fp1 := { fp with retry_count := 0, status := Status.scheduled
                       scheduled_time := slot }
  { acc with
      content_queue := acc.content_queue ++ [fp1]
      timers := addTimer acc.timers (fp.job_id ++ "_manual_retry") }

/-- `retry_failed_posts()`: re-enqueue every permanently failed post, then
clear the permanent-failure list (the success response is not modelled
beyond the state change). -/
def retry_failed_posts (s : SchedulerState) (now : ℕ) : SchedulerState :=
  if s.failed_posts = [] then s
  else
    let s1 := s.failed_posts.foldl (retryStep now) s
    { s1 with failed_posts := [] }

/-- One `schedule_content` request, for reasoning about call sequences. -/
structure SchedCall where
  now : ℕ
  job_id : String
  content : Option ℕ
  ts : TimeSpec
deriving DecidableEq, Repr

/-- Run a sequence of `schedule_content` calls from a state. -/
def runSchedule (s : SchedulerState) (calls : List SchedCall) : SchedulerState :=
  calls.foldl
    (fun s c => (schedule_content s c.now c.job_id c.content c.ts).1) s

/-- The conflict-window invariant: any two `scheduled` queue items are at
least `slotWindow` minutes apart. -/
def conflictFree (q : List QueuedContent) : Prop :=
  q.Pairwise (fun a b => a.status = Status.scheduled →
    b.status = Status.scheduled →
    slotWindow ≤ Nat.dist a.scheduled_time b.scheduled_time)

instance (q : List QueuedContent) : Decidable (conflictFree q) := by
  unfold conflictFree
  exact List.instDecidablePairwise q

/-! ## Workflow data model (src/workflow.py) -/

/-- The `WorkflowStatus` enum. -/
inductive WorkflowStatus where
  | idle
  | initializing
  | researching
  | generating
  | editing
  | scheduling
  | completed
  | failed
  | paused
deriving DecidableEq, Repr

/-- `WorkflowStatus.value`, the string payloads of the Python enum. -/
def statusValue : WorkflowStatus → String
  | .idle => "idle"
  | .initializing => "initializing"
  | .researching => "researching"
  | .generating => "generating"
  | .editing => "editing"
  | .scheduling => "scheduling"
  | .completed => "completed"
  | .failed => "failed"
  | .paused => "paused"

/-- One `workflow_run` dict. Per-stage result payloads (`stages`) are carried
by the pipeline's return value and not re-read from the run record, so they
are not replicated here; `content_generated` keeps the approved payloads. -/
structure WorkflowRun where
  run_id : String
  started_at : ℕ
  manual_trigger : Bool
  status : String
  content_generated : List ℕ
  failed_stage : Option String
  error : Option String
  success : Option Bool
  completed_at : Option ℕ
  duration_seconds : ℚ
deriving DecidableEq, Repr

/-- `self.metrics`. The running average is kept as an exact rational in
place of the float of the source. -/
structure Metrics where
  total_workflows : ℕ
  successful_workflows : ℕ
  failed_workflows : ℕ
  average_duration_seconds : ℚ
  content_generated_today : ℕ
  content_published_today : ℕ
deriving DecidableEq, Repr

/-- The workflow orchestrator's state (manual-request queue and agent
registry are untouched by the claims and omitted). -/
structure WorkflowState where
  current_status : WorkflowStatus
  current_run_id : Option String
  workflow_history : List WorkflowRun
  active_jobs : List (String × WorkflowRun)
  metrics : Metrics
deriving DecidableEq, Repr

/-- The state `ContentWorkflow.__init__` builds (status `idle`, empty
collections, zeroed metrics). -/
def initialWorkflowState : WorkflowState :=
  { current_status := WorkflowStatus.idle
    current_run_id := none
    workflow_history := []
    active_jobs := []
    metrics :=
      { total_workflows := 0, successful_workflows := 0, failed_workflows := 0
        average_duration_seconds := 0, content_generated_today := 0
        content_published_today := 0 } }

/-- `workflow_config["auto_cleanup_old_jobs"]`. -/
def autoCleanupOldJobs : Bool := true

/-- `workflow_config["cleanup_age_hours"]`, in minutes. -/
def cleanupAgeMinutes : ℕ := 24 * 60

/-- The history cap applied in `complete_workflow_run` ("Keep last 100"). -/
def historyCap : ℕ := 100

/-- The three return-dict shapes of `execute_pipeline`. -/
inductive PipelineResult where
  | alreadyRunning (error : String) (current_run_id : Option String)
  | failure (run_id failed_stage error status : String)
  | success (run_id : String) (content_generated posts_scheduled : ℕ)
deriving DecidableEq, Repr

/-- The external stage collaborators (§6 of the spec): the trend
researcher's single response, and the per-item responses of the content
developer, editor and scheduler agents. `generate t = none` is a per-trend
failure, `review c = none` an editor error (the item is neither approved nor
rejected), `review c = some b` reports the approved flag, and `schedule c`
the scheduler's success for that item. -/
structure Env where
  researchSuccess : Bool
  researchTrends : List ℕ
  researchError : String
  generate : ℕ → Option ℕ
  review : ℕ → Option Bool
  schedule : ℕ → Bool

/-- `update_workflow_metrics(run_id, success, duration)`; `now` stands for
the `datetime.utcnow()` read used for the per-day count. -/
def update_workflow_metrics (w : WorkflowState) (run_id : String)
    (success : Bool) (duration : ℚ) (now : ℕ) : WorkflowState :=
  let m0 := w.metrics
  let m1 := { m0 with total_workflows := m0.total_workflows + 1 }
  let m2 :=
    if success then
      { m1 with successful_workflows := m1.successful_workflows + 1 }
    else
      { m1 with failed_workflows := m1.failed_workflows + 1 }
  let m3 :=
    if 0 < duration then
      { m2 with average_duration_seconds :=
          (m2.average_duration_seconds * ((m2.total_workflows : ℚ) - 1)
            + duration) / (m2.total_workflows : ℚ) }
    else m2
  let today := now / 1440
  let m4 := { m3 with content_generated_today :=
      ((w.workflow_history.filter
          (fun r => decide (r.started_at / 1440 = today))).map
        (fun r => r.content_generated.length)).sum }
  { w with metrics := m4 }

/-- `complete_workflow_run(run_id, success)`: stamp the outcome, move the
run to the history (capped at the last 100 entries), drop it from
`active_jobs`, and reset the current run pointer and status. -/
def complete_workflow_run (w : WorkflowState) (run_id : String)
    (success : Bool) : WorkflowState :=
  let w1 :=
    match lookupA w.active_jobs run_id with
    | some run =>
      let hist := w.workflow_history ++ [{ run with success := some success }]
      let hist2 :=
        if historyCap < hist.length then hist.drop (hist.length - historyCap)
        else hist
      { w with workflow_history := hist2
               active_jobs := eraseA w.active_jobs run_id }
    | none => w
  if w1.current_run_id = some run_id then
    { w1 with current_run_id := none, current_status := WorkflowStatus.idle }
  else w1

/-- `handle_workflow_failure(run_id, failed_stage, error)`. Note the
returned dict's `status` field is read after `complete_workflow_run` has
already reset the status. -/
def handle_workflow_failure (w : WorkflowState)
    (run_id failed_stage error : String) (now : ℕ) :
    WorkflowState × PipelineResult :=
  let w1 := { w with current_status := WorkflowStatus.failed }
  let w2 :=
    match lookupA w1.active_jobs run_id with
    | some run =>
      let run1 := { run with status := "failed"
                             failed_stage := some failed_stage
                             error := some error }
      { w1 with active_jobs := insertA w1.active_jobs run_id run1 }
    | none => w1
  let w3 := complete_workflow_run w2 run_id false
  let w4 := update_workflow_metrics w3 run_id false 0 now
  (w4, .failure run_id failed_stage error (statusValue w4.current_status))

/-- Set `self.current_status` and mirror it into the active run record
(`workflow_run["status"] = self.current_status.value`). -/
def setStage (w : WorkflowState) (run_id : String) (st : WorkflowStatus) :
    WorkflowState :=
  let w1 := { w with current_status := st }
  match lookupA w1.active_jobs run_id with
  | some run =>
    let run1 := { run with status := statusValue st }
    { w1 with active_jobs := insertA w1.active_jobs run_id run1 }
  | none => w1

/-- `execute_pipeline(manual_trigger)`. `run_id` stands for the generated
uuid, `now` for the wall clock at entry and `dur` for the elapsed duration
the completion path reports. Stage collaborators come from `env`; the
stage-level wrappers in the source only repackage their responses, so the
pipeline's branching is driven directly by them: research failure or zero
trends abort at `research`; generation runs over the top 3 trends and
aborts when no item succeeds; editing keeps approved items and aborts when
none is approved; scheduling keeps successfully scheduled items and aborts
when none is scheduled; otherwise the run completes. -/
def execute_pipeline (w : WorkflowState) (env : Env) (run_id : String)
    (now : ℕ) (manual_trigger : Bool) (dur : ℚ) :
    WorkflowState × PipelineResult :=
  if w.current_status = WorkflowStatus.idle ∨
      w.current_status = WorkflowStatus.completed ∨
      w.current_status = WorkflowStatus.failed then
    let w1 := { w with current_run_id := some run_id
                       current_status := WorkflowStatus.researching }
    let run0 : WorkflowRun :=
      { run_id := run_id, started_at := now, manual_trigger := manual_trigger
        status := "researching", content_generated := []
        failed_stage := none, error := none, success := none
        completed_at := none, duration_seconds := 0 }
    let w2 := { w1 with active_jobs := insertA w1.active_jobs run_id run0 }
    if env.researchSuccess = false then
      handle_workflow_failure w2 run_id "research" env.researchError now
    else if env.researchTrends = [] then
      handle_workflow_failure w2 run_id "research" "No trends found" now
    else
      let trends := env.researchTrends.take 3
      let w3 := setStage w2 run_id WorkflowStatus.generating
      let generated := trends.filterMap env.generate
      if generated = [] then
        handle_workflow_failure w3 run_id "generation" "No content generated" now
      else
        let w4 := setStage w3 run_id WorkflowStatus.editing
        let approved := generated.filter (fun c => env.review c = some true)
        if approved = [] then
          handle_workflow_failure w4 run_id "editing" "No content approved" now
        else
          let w5 := setStage w4 run_id WorkflowStatus.scheduling
          let scheduled := approved.filter env.schedule
          if scheduled = [] then
            handle_workflow_failure w5 run_id "scheduling" "No content scheduled" now
          else
            let w6 := { w5 with current_status := WorkflowStatus.completed }
            let w7 :=
              match lookupA w6.active_jobs run_id with
              | some run =>
                let run1 := { run with status := "completed"
                                       completed_at := some now
                                       duration_seconds := dur
                                       content_generated := approved }
                { w6 with active_jobs := insertA w6.active_jobs run_id run1 }
              | none => w6
            let w8 := complete_workflow_run w7 run_id true
            let w9 := update_workflow_metrics w8 run_id true dur now
            (w9, .success run_id approved.length scheduled.length)
  else
    (w, .alreadyRunning
      ("Workflow already running with status: " ++ statusValue w.current_status)
      w.current_run_id)

/-- `cleanup_old_workflows()`: with auto-cleanup enabled, keep only history
entries newer than the cutoff and drop stale active jobs. (`now` must be at
least `cleanupAgeMinutes` for the truncated subtraction to match the
unbounded datetime arithmetic of the source; every realistic clock is.) -/
def cleanup_old_workflows (w : WorkflowState) (now : ℕ) : WorkflowState :=
  if autoCleanupOldJobs = false then w
  else
    let cutoff := now - cleanupAgeMinutes
    { w with
        workflow_history := w.workflow_history.filter
          (fun r => decide (cutoff < r.started_at))
        active_jobs := w.active_jobs.filter
          (fun p => !decide (p.2.started_at < cutoff)) }

/-! ## Concrete fixtures used by witnesses, scenarios and counterexamples -/

/-- A `scheduled` queue item at instant `t` (job id "x", payload 0). -/
def sampleItem (t : ℕ) : QueuedContent :=
  { job_id := "x", content := 0, scheduled_time := t
    status := Status.scheduled, created_at := 0, retry_count := 0 }

/-- Queue occupying the 09:00 and 12:00 anchors of day 0. -/
def scenarioQueue1 : List QueuedContent := [sampleItem 540, sampleItem 720]

/-- Queue occupying all three anchors of day 0. -/
def scenarioQueue2 : List QueuedContent :=
  [sampleItem 540, sampleItem 720, sampleItem 1020]

/-- Queue occupying every anchor of days 0 through 8 — the whole range the
allocator actually searches — while every later anchor stays free. -/
def saturatedQueue : List QueuedContent :=
  (List.range 9).flatMap (fun d => dailyTimes.map (fun a => sampleItem (d * 1440 + a)))

/-- `saturatedQueue` plus a `scheduled` item 70 minutes past midnight of
day 0, ten minutes away from the `now + 1 hour` fallback of `now = 0`. -/
def saturatedQueueNearFallback : List QueuedContent :=
  saturatedQueue ++ [sampleItem 70]

/-! ## General list lemmas -/

/-- `find?` over a `filter` tests the conjunction of the two predicates. -/
theorem find?_filter_bool {α : Type} (l : List α) (p q : α → Bool) :
    (l.filter p).find? q = l.find? (fun a => p a && q a) := by
  induction l with
  | nil => rfl
  | cons x xs ih =>
    by_cases hp : p x = true
    · by_cases hq : q x = true <;>
        simp [List.filter_cons, hp, hq, List.find?_cons, ih]
    · simp [List.filter_cons, Bool.eq_false_iff.mpr hp, List.find?_cons, ih]

/-- A `filter` strictly shrinks a list iff some element fails the predicate. -/
theorem length_filter_lt_iff {α : Type} (l : List α) (p : α → Bool) :
    (l.filter p).length < l.length ↔ ∃ a ∈ l, p a = false := by
  induction l with
  | nil => simp
  | cons x xs ih =>
    by_cases hp : p x = true
    · simpa [List.filter_cons, hp, Nat.add_lt_add_iff_right] using ih
    · have hx : p x = false := Bool.eq_false_iff.mpr hp
      have hle := List.length_filter_le p xs
      simp only [List.filter_cons, hx, Bool.false_eq_true, if_false,
        List.length_cons]
      constructor
      · intro _; exact ⟨x, List.mem_cons_self x xs, hx⟩
      · intro _; omega

/-- A collaborator environment whose research stage fails; used only to
instantiate universally quantified theorems at a concrete point. -/
def probeEnv : Env :=
  { researchSuccess := false, researchTrends := [], researchError := "down"
    generate := fun _ => none, review := fun _ => none
    schedule := fun _ => false }

/-- The environment of the empty-trend-list scenario: research succeeds but
returns zero trends. -/
def emptyTrendsEnv : Env :=
  { researchSuccess := true, researchTrends := [], researchError := ""
    generate := fun _ => none, review := fun _ => none
    schedule := fun _ => false }

/-! ## C2: admission control of `execute_pipeline` -/

/-- C2: whenever `execute_pipeline` is called while the current workflow
status is any non-terminal, non-idle state (not `idle`, `completed` or
`failed`), it returns the already-running failure dict naming the current
status, and the entire workflow state — status, current run id, active
jobs, history and metrics — is left unchanged, so no second run starts. -/
theorem execute_pipeline_rejects_while_running (w : WorkflowState) (env : Env)
    (run_id : String) (now : ℕ) (manual : Bool) (dur : ℚ)
    (h1 : w.current_status ≠ WorkflowStatus.idle)
    (h2 : w.current_status ≠ WorkflowStatus.completed)
    (h3 : w.current_status ≠ WorkflowStatus.failed) :
    execute_pipeline w env run_id now manual dur =
      (w, PipelineResult.alreadyRunning
        ("Workflow already running with status: " ++
          statusValue w.current_status)
        w.current_run_id) := by
  have hcond : ¬(w.current_status = WorkflowStatus.idle ∨
      w.current_status = WorkflowStatus.completed ∨
      w.current_status = WorkflowStatus.failed) := by
    rintro (h | h | h)
    · exact h1 h
    · exact h2 h
    · exact h3 h
  unfold execute_pipeline
  rw [if_neg hcond]

/-- Concrete instance of C2: a call made in the `researching` state is
rejected and changes nothing. -/
theorem execute_pipeline_rejects_while_running_witness :
    execute_pipeline
        { initialWorkflowState with
            current_status := WorkflowStatus.researching }
        probeEnv "r2" 5 true 0 =
      ({ initialWorkflowState with
          current_status := WorkflowStatus.researching },
       PipelineResult.alreadyRunning
         ("Workflow already running with status: " ++
           statusValue WorkflowStatus.researching)
         none) :=
  execute_pipeline_rejects_while_running _ probeEnv "r2" 5 true 0
    (by decide) (by decide) (by decide)

/-! ## C10: metrics counters -/

/-- C10: every `update_workflow_metrics` call increments `total_workflows`
by exactly one and exactly one of `successful_workflows` /
`failed_workflows` by exactly one (so all three counters are
non-decreasing), and it preserves the invariant
`total_workflows = successful_workflows + failed_workflows`. -/
theorem update_workflow_metrics_counters (w : WorkflowState) (rid : String)
    (success : Bool) (dur : ℚ) (now : ℕ) :
    (update_workflow_metrics w rid success dur now).metrics.total_workflows =
      w.metrics.total_workflows + 1 ∧
    (success = true →
      (update_workflow_metrics w rid success dur now).metrics.successful_workflows =
        w.metrics.successful_workflows + 1 ∧
      (update_workflow_metrics w rid success dur now).metrics.failed_workflows =
        w.metrics.failed_workflows) ∧
    (success = false →
      (update_workflow_metrics w rid success dur now).metrics.failed_workflows =
        w.metrics.failed_workflows + 1 ∧
      (update_workflow_metrics w rid success dur now).metrics.successful_workflows =
        w.metrics.successful_workflows) ∧
    w.metrics.successful_workflows ≤
      (update_workflow_metrics w rid success dur now).metrics.successful_workflows ∧
    w.metrics.failed_workflows ≤
      (update_workflow_metrics w rid success dur now).metrics.failed_workflows ∧
    (w.metrics.total_workflows =
        w.metrics.successful_workflows + w.metrics.failed_workflows →
      (update_workflow_metrics w rid success dur now).metrics.total_workflows =
        (update_workflow_metrics w rid success dur now).metrics.successful_workflows +
        (update_workflow_metrics w rid success dur now).metrics.failed_workflows) := by
  cases success <;>
    by_cases hd : (0 : ℚ) < dur <;>
      simp [update_workflow_metrics, hd] <;> omega

/-- Concrete instance of C10 at the initial metrics, failure outcome. -/
theorem update_workflow_metrics_counters_witness :
    (update_workflow_metrics initialWorkflowState "r1" false 0 0).metrics.total_workflows =
      initialWorkflowState.metrics.total_workflows + 1 ∧
    (false = false →
      (update_workflow_metrics initialWorkflowState "r1" false 0 0).metrics.failed_workflows =
        initialWorkflowState.metrics.failed_workflows + 1 ∧
      (update_workflow_metrics initialWorkflowState "r1" false 0 0).metrics.successful_workflows =
        initialWorkflowState.metrics.successful_workflows) ∧
    (initialWorkflowState.metrics.total_workflows =
        initialWorkflowState.metrics.successful_workflows +
        initialWorkflowState.metrics.failed_workflows →
      (update_workflow_metrics initialWorkflowState "r1" false 0 0).metrics.total_workflows =
        (update_workflow_metrics initialWorkflowState "r1" false 0 0).metrics.successful_workflows +
        (update_workflow_metrics initialWorkflowState "r1" false 0 0).metrics.failed_workflows) :=
  ⟨(update_workflow_metrics_counters initialWorkflowState "r1" false 0 0).1,
   (update_workflow_metrics_counters initialWorkflowState "r1" false 0 0).2.2.1,
   (update_workflow_metrics_counters initialWorkflowState "r1" false 0 0).2.2.2.2.2⟩

/-! ## C8: conflict detection check order -/

/-- C8: `check_scheduling_conflicts` performs its four checks in the fixed
order past-time, occupied-window, horizon, queue-capacity; the first failing
check short-circuits with its own distinct reason string (in particular a
past-time candidate against a full queue reports the past-time reason), and
a candidate passing all four is available. -/
theorem check_scheduling_conflicts_order (s : SchedulerState) (now t : ℕ) :
    (t ≤ now →
      check_scheduling_conflicts s now t =
        some "Cannot schedule content in the past") ∧
    (now < t → is_slot_occupied s.content_queue t = true →
      check_scheduling_conflicts s now t =
        some "Time slot already occupied") ∧
    (now < t → is_slot_occupied s.content_queue t = false →
      now + schedulingHorizon < t →
      check_scheduling_conflicts s now t =
        some "Cannot schedule more than 30 days in advance") ∧
    (now < t → is_slot_occupied s.content_queue t = false →
      t ≤ now + schedulingHorizon → maxQueueSize ≤ s.content_queue.length →
      check_scheduling_conflicts s now t = some "Content queue is full") ∧
    (now < t → is_slot_occupied s.content_queue t = false →
      t ≤ now + schedulingHorizon → s.content_queue.length < maxQueueSize →
      check_scheduling_conflicts s now t = none) ∧
    ([("Cannot schedule content in the past" : String),
      "Time slot already occupied",
      "Cannot schedule more than 30 days in advance",
      "Content queue is full"].Pairwise (fun a b => a ≠ b)) := by
  refine ⟨?_, ?_, ?_, ?_, ?_, by decide⟩
  · intro h
    simp [check_scheduling_conflicts, h]
  · intro h1 h2
    simp [check_scheduling_conflicts, Nat.not_le.mpr h1, h2]
  · intro h1 h2 h3
    simp [check_scheduling_conflicts, Nat.not_le.mpr h1, h2, h3]
  · intro h1 h2 h3 h4
    simp [check_scheduling_conflicts, Nat.not_le.mpr h1, h2,
      Nat.not_lt.mpr h3, h4]
  · intro h1 h2 h3 h4
    simp [check_scheduling_conflicts, Nat.not_le.mpr h1, h2,
      Nat.not_lt.mpr h3, Nat.not_le.mpr h4]

/-- A scheduler state whose live queue already holds `max_queue_size`
items. -/
def fullQueueState : SchedulerState :=
  { content_queue := (List.range maxQueueSize).map (fun i => sampleItem (3000 + 40 * i))
    scheduled_posts := [], failed_posts := [], publishing_history := []
    timers := [] }

/-- Concrete instance of C8: a past-time candidate against a full queue is
rejected for being in the past, not for the full queue. -/
theorem check_scheduling_conflicts_order_witness :
    maxQueueSize ≤ fullQueueState.content_queue.length ∧
    check_scheduling_conflicts fullQueueState 100 50 =
      some "Cannot schedule content in the past" :=
  ⟨by decide,
   (check_scheduling_conflicts_order fullQueueState 100 50).1 (by decide)⟩

/-! ## C4 / C6: the slot allocator's search -/

/-- The candidate instants `find_next_available_slot` scans, in scan order:
today's anchors that are still in the future, then every anchor of
tomorrow and of the following seven days. -/
def searchCandidates (now : ℕ) : List ℕ :=
  (anchorsOn (now / 1440)).filter (fun s => decide (now < s)) ++
    ((anchorsOn (now / 1440 + 1)) ++
      (List.range 7).flatMap (fun k => anchorsOn (now / 1440 + 2 + k)))

/-- The allocator returns the first free candidate, and `now + 60` when
every candidate is occupied. -/
theorem find_next_available_slot_eq_find (q : List QueuedContent) (now : ℕ) :
    find_next_available_slot q now =
      ((searchCandidates now).find?
        (fun s => !is_slot_occupied q s)).getD (now + 60) := by
  unfold find_next_available_slot searchCandidates
  rw [List.find?_append, List.find?_append, find?_filter_bool]
  cases h1 : (anchorsOn (now / 1440)).find?
      (fun s => decide (now < s) && !is_slot_occupied q s) with
  | some s => simp [h1]
  | none =>
    cases h2 : (anchorsOn (now / 1440 + 1)).find?
        (fun s => !is_slot_occupied q s) with
    | some s => simp [h1, h2]
    | none =>
      cases h3 : ((List.range 7).flatMap
          (fun k => anchorsOn (now / 1440 + 2 + k))).find?
          (fun s => !is_slot_occupied q s) with
      | some s => simp [h1, h2, h3]
      | none => simp [h1, h2, h3]

/-- Every candidate the allocator scans lies strictly after `now`. -/
theorem searchCandidates_future {now s : ℕ} (h : s ∈ searchCandidates now) :
    now < s := by
  have hdm : 1440 * (now / 1440) + now % 1440 = now := Nat.div_add_mod now 1440
  have hmlt : now % 1440 < 1440 := Nat.mod_lt now (by norm_num)
  simp only [searchCandidates, anchorsOn, dailyTimes, List.mem_append,
    List.mem_filter, List.mem_map, List.mem_flatMap, List.mem_range,
    decide_eq_true_eq] at h
  rcases h with ⟨-, hfut⟩ | ⟨a, ha, rfl⟩ | ⟨k, -, a, ha, rfl⟩ <;>
    [exact hfut; skip; skip] <;>
    (simp only [List.mem_cons, List.not_mem_nil, or_false] at ha;
     rcases ha with rfl | rfl | rfl <;> omega)

/-- C4 (counterexample): with every anchor of days 0–8 occupied but the
09:00 anchor of day 9 — a daily anchor well inside the 30-day horizon —
still free, the allocator does not return that free anchor: it falls back
to `now + 1 hour`, which is not an anchor time at all. The search therefore
stops 8 days out, not at the 30-day horizon. -/
theorem find_next_available_slot_horizon_cex :
    find_next_available_slot saturatedQueue 0 = 0 + 60 ∧
    is_slot_occupied saturatedQueue 13500 = false ∧
    13500 ≤ 0 + schedulingHorizon ∧
    13500 % 1440 ∈ dailyTimes ∧
    (0 + 60) % 1440 ∉ dailyTimes := by decide

/-- C4 (amended): the allocator tries, in order, today's remaining (strictly
future) anchors, then all anchors of tomorrow, then all anchors of each of
the next seven days — 8 days ahead in total, not the 30-day horizon — and
returns the first candidate free of conflicts; only when every candidate of
that 8-day window is occupied does it fall back to `now + 1 hour`.
Concretely: with 09:00 and 12:00 of today occupied, a request before 09:00
returns 17:00 today; with all three of today's anchors occupied it returns
09:00 tomorrow. -/
theorem find_next_available_slot_search_order (q : List QueuedContent)
    (now : ℕ) :
    find_next_available_slot q now =
      ((searchCandidates now).find?
        (fun s => !is_slot_occupied q s)).getD (now + 60) ∧
    find_next_available_slot scenarioQueue1 480 = 1020 ∧
    find_next_available_slot scenarioQueue2 480 = 1440 + 540 :=
  ⟨find_next_available_slot_eq_find q now, by decide, by decide⟩

/-- C6 (counterexample): in the saturated state with an extra `scheduled`
item 70 minutes past midnight, the 09:00 anchor of day 9 is free and inside
the 30-day horizon, yet the allocator's answer (the `now + 1 hour`
fallback) lands strictly within the 30-minute conflict window of that
extra item. -/
theorem find_next_available_slot_conflict_cex :
    is_slot_occupied saturatedQueueNearFallback 13500 = false ∧
    13500 ≤ 0 + schedulingHorizon ∧
    13500 % 1440 ∈ dailyTimes ∧
    is_slot_occupied saturatedQueueNearFallback
      (find_next_available_slot saturatedQueueNearFallback 0) = true := by
  decide

/-- C6 (amended): the allocator always returns an instant strictly after
`now`; and whenever at least one candidate anchor of the 8-day window it
actually searches is free of conflicts, the returned instant is at least
the 30-minute conflict window away from every `scheduled` item. -/
theorem find_next_available_slot_future_and_safe (q : List QueuedContent)
    (now : ℕ) :
    now < find_next_available_slot q now ∧
    ((∃ t ∈ searchCandidates now, is_slot_occupied q t = false) →
      ∀ c ∈ q, c.status = Status.scheduled →
        slotWindow ≤ Nat.dist c.scheduled_time (find_next_available_slot q now)) := by
  constructor
  · rw [find_next_available_slot_eq_find]
    cases hf : (searchCandidates now).find? (fun s => !is_slot_occupied q s) with
    | some s =>
      simpa using searchCandidates_future (List.mem_of_find?_eq_some hf)
    | none => simp
  · rintro ⟨t, ht, hfree⟩ c hc hstat
    rw [find_next_available_slot_eq_find]
    have hsome : ((searchCandidates now).find?
        (fun s => !is_slot_occupied q s)).isSome := by
      rw [List.find?_isSome]
      exact ⟨t, ht, by rw [hfree]; rfl⟩
    obtain ⟨s, hs⟩ := Option.isSome_iff_exists.mp hsome
    have hsfree : is_slot_occupied q s = false := by
      have := List.find?_some hs
      simpa using this
    rw [hs]
    have hall := List.any_eq_false.mp hsfree c hc
    simp only [hstat, decide_eq_true_eq, Bool.and_eq_true, not_and,
      not_lt] at hall
    simpa using hall

/-! ## C1: the conflict-window invariant of `schedule_content` -/

/-- When the candidate instant is occupied, conflict detection reports a
failure (the past-time check may fire first; either way the request is
rejected). -/
theorem check_some_of_occupied (s : SchedulerState) (now t : ℕ)
    (h : is_slot_occupied s.content_queue t = true) :
    ∃ r, check_scheduling_conflicts s now t = some r := by
  unfold check_scheduling_conflicts
  by_cases h1 : t ≤ now
  · exact ⟨_, by rw [if_pos h1]⟩
  · exact ⟨_, by rw [if_neg h1, if_pos h]⟩

/-- A passing conflict check implies the candidate instant is free. -/
theorem check_none_not_occupied (s : SchedulerState) (now t : ℕ)
    (h : check_scheduling_conflicts s now t = none) :
    is_slot_occupied s.content_queue t = false := by
  unfold check_scheduling_conflicts at h
  split_ifs at h with h1 h2 h3 h4
  exact Bool.eq_false_iff.mpr h2

/-- What a `schedule_content` call does to the state: either nothing (any
rejection) or a single append of a fresh `scheduled` item at an instant
that passed conflict detection. -/
theorem schedule_content_state (s : SchedulerState) (now : ℕ) (jid : String)
    (content : Option ℕ) (ts : TimeSpec) :
    (schedule_content s now jid content ts).1 = s ∨
    ∃ t, check_scheduling_conflicts s now t = none ∧
      (schedule_content s now jid content ts).1 =
        { s with
            content_queue := s.content_queue ++
              [{ job_id := jid, content := content.getD 0
                 scheduled_time := t, status := Status.scheduled
                 created_at := now, retry_count := 0 }]
            timers := addTimer s.timers jid
            scheduled_posts := insertA s.scheduled_posts jid
              { job_id := jid, content := content.getD 0
                scheduled_time := t, status := Status.scheduled
                created_at := now, retry_count := 0 } } := by
  unfold schedule_content
  cases content with
  | none => exact Or.inl rfl
  | some payload =>
    cases ts with
    | invalid => exact Or.inl rfl
    | auto =>
      cases hc : check_scheduling_conflicts s now
          (find_next_available_slot s.content_queue now) with
      | some r => exact Or.inl (by simp [hc])
      | none =>
        exact Or.inr ⟨find_next_available_slot s.content_queue now, hc,
          by simp [hc]⟩
    | fixedTime t =>
      cases hc : check_scheduling_conflicts s now t with
      | some r => exact Or.inl (by simp [hc])
      | none => exact Or.inr ⟨t, hc, by simp [hc]⟩

/-- One `schedule_content` call preserves the conflict-window invariant. -/
theorem schedule_content_preserves_conflictFree (s : SchedulerState)
    (now : ℕ) (jid : String) (content : Option ℕ) (ts : TimeSpec)
    (h : conflictFree s.content_queue) :
    conflictFree ((schedule_content s now jid content ts).1).content_queue := by
  rcases schedule_content_state s now jid content ts with heq | ⟨t, hc, heq⟩
  · rw [heq]; exact h
  · rw [heq]
    have hfree := check_none_not_occupied s now t hc
    have hall := List.any_eq_false.mp hfree
    unfold conflictFree at h ⊢
    rw [List.pairwise_append]
    refine ⟨h, List.pairwise_singleton _ _, ?_⟩
    intro a ha b hb hsa hsb
    simp only [List.mem_singleton] at hb
    subst hb
    have := hall a ha
    simp only [hsa, decide_eq_true_eq, Bool.and_eq_true, not_and,
      not_lt] at this
    simpa using this trivial

/-- The conflict-window invariant is preserved by any sequence of
`schedule_content` calls. -/
theorem runSchedule_conflictFree (calls : List SchedCall) (s : SchedulerState)
    (h : conflictFree s.content_queue) :
    conflictFree (runSchedule s calls).content_queue := by
  induction calls generalizing s with
  | nil => exact h
  | cons c cs ih =>
    exact ih _ (schedule_content_preserves_conflictFree s c.now c.job_id
      c.content c.ts h)

/-- C1: after any sequence of `schedule_content` calls starting from the
fresh scheduler, no two queue items with status `scheduled` sit strictly
closer than the 30-minute conflict window; and a further request (with
content, and either no explicit time or a parseable one) whose resolved
publish instant is occupied is rejected with a scheduling-conflict error,
leaving the state unchanged. -/
theorem schedule_content_conflict_window (calls : List SchedCall)
    (c : SchedCall) (hcontent : c.content.isSome = true)
    (hts : c.ts ≠ TimeSpec.invalid)
    (hocc : is_slot_occupied
      (runSchedule initialSchedulerState calls).content_queue
      (resolveTime (runSchedule initialSchedulerState calls) c.now c.ts) = true) :
    conflictFree (runSchedule initialSchedulerState calls).content_queue ∧
    (schedule_content (runSchedule initialSchedulerState calls) c.now
      c.job_id c.content c.ts).1 = runSchedule initialSchedulerState calls ∧
    ∃ r, (schedule_content (runSchedule initialSchedulerState calls) c.now
      c.job_id c.content c.ts).2 =
        SchedResponse.error ("Scheduling conflict: " ++ r) := by
  refine ⟨runSchedule_conflictFree calls initialSchedulerState
    List.Pairwise.nil, ?_⟩
  obtain ⟨p, hp⟩ := Option.isSome_iff_exists.mp hcontent
  cases hts' : c.ts with
  | invalid => exact absurd hts' hts
  | auto =>
    rw [hts'] at hocc
    simp only [resolveTime] at hocc
    obtain ⟨r, hr⟩ := check_some_of_occupied
      (runSchedule initialSchedulerState calls) c.now _ hocc
    rw [hp]
    exact ⟨by simp [schedule_content, hr], r, by simp [schedule_content, hr]⟩
  | fixedTime t =>
    rw [hts'] at hocc
    simp only [resolveTime] at hocc
    obtain ⟨r, hr⟩ := check_some_of_occupied
      (runSchedule initialSchedulerState calls) c.now t hocc
    rw [hp]
    exact ⟨by simp [schedule_content, hr], r, by simp [schedule_content, hr]⟩

/-- Concrete instance of C1: after scheduling one item at instant 2000, a
second request ten minutes away is rejected and the state is unchanged. -/
theorem schedule_content_conflict_window_witness :
    conflictFree (runSchedule initialSchedulerState
      [{ now := 1000, job_id := "a", content := some 1
         ts := TimeSpec.fixedTime 2000 }]).content_queue ∧
    (schedule_content (runSchedule initialSchedulerState
        [{ now := 1000, job_id := "a", content := some 1
           ts := TimeSpec.fixedTime 2000 }]) 1000 "b" (some 2)
      (TimeSpec.fixedTime 2010)).1 =
      runSchedule initialSchedulerState
        [{ now := 1000, job_id := "a", content := some 1
           ts := TimeSpec.fixedTime 2000 }] ∧
    ∃ r, (schedule_content (runSchedule initialSchedulerState
        [{ now := 1000, job_id := "a", content := some 1
           ts := TimeSpec.fixedTime 2000 }]) 1000 "b" (some 2)
      (TimeSpec.fixedTime 2010)).2 =
        SchedResponse.error ("Scheduling conflict: " ++ r) :=
  schedule_content_conflict_window
    [{ now := 1000, job_id := "a", content := some 1
       ts := TimeSpec.fixedTime 2000 }]
    { now := 1000, job_id := "b", content := some 2
      ts := TimeSpec.fixedTime 2010 }
    (by decide) (by decide) (by decide)

/-! ## C7: cancellation -/

/-- Erasing a key removes every binding of that key. -/
theorem lookupA_eraseA {α : Type} (l : List (String × α)) (k : String) :
    lookupA (eraseA l k) k = none := by
  unfold lookupA eraseA
  have hnone : (l.filter (fun p => !decide (p.1 = k))).find?
      (fun p => decide (p.1 = k)) = none := by
    rw [List.find?_eq_none]
    intro x hx
    simp only [List.mem_filter, Bool.not_eq_true', decide_eq_false_iff_not] at hx
    simp [hx.2]
  rw [hnone]
  rfl

/-- What `cancel_scheduled_post` does to the state for a non-empty job id:
the id is filtered out of the timer registry and the live queue and erased
from `scheduled_posts`, whether or not the call reports success. -/
theorem cancel_scheduled_post_state (s : SchedulerState) (jid : String)
    (h : jid ≠ "") :
    (cancel_scheduled_post s jid).1 =
      { s with
          timers := s.timers.filter (fun t => !decide (t = jid))
          content_queue := s.content_queue.filter
            (fun c => !decide (c.job_id = jid))
          scheduled_posts := eraseA s.scheduled_posts jid } := by
  unfold cancel_scheduled_post
  rw [if_neg h]
  dsimp only
  split <;> rfl

/-- C7: for a non-empty job id, `cancel_scheduled_post` succeeds exactly
when the job is present in at least one tracked structure (timer registry,
live queue, or `scheduled_posts`); afterwards the job is gone from all
three, and an immediate second cancellation of the same id fails with the
not-found error. -/
theorem cancel_scheduled_post_spec (s : SchedulerState) (jid : String)
    (h : jid ≠ "") :
    ((cancel_scheduled_post s jid).2.isSuccess = true ↔
      (jid ∈ s.timers ∨ (∃ c ∈ s.content_queue, c.job_id = jid) ∨
        (lookupA s.scheduled_posts jid).isSome = true)) ∧
    (jid ∉ (cancel_scheduled_post s jid).1.timers ∧
      (∀ c ∈ (cancel_scheduled_post s jid).1.content_queue, c.job_id ≠ jid) ∧
      lookupA (cancel_scheduled_post s jid).1.scheduled_posts jid = none) ∧
    (cancel_scheduled_post (cancel_scheduled_post s jid).1 jid).2 =
      SchedResponse.error ("Job " ++ jid ++ " not found in any scheduling system") := by
  have hq : ((s.content_queue.filter
      (fun c => !decide (c.job_id = jid))).length < s.content_queue.length) ↔
      ∃ c ∈ s.content_queue, c.job_id = jid := by
    rw [length_filter_lt_iff]
    simp
  refine ⟨?_, ⟨?_, ?_, ?_⟩, ?_⟩
  · unfold cancel_scheduled_post
    rw [if_neg h]
    dsimp only
    split_ifs with hcond
    · simp only [SchedResponse.isSuccess, true_iff]
      simp only [Bool.or_eq_true, decide_eq_true_eq, Option.isSome] at hcond ⊢
      rcases hcond with (ht | hl) | hp
      · exact Or.inl ht
      · exact Or.inr (Or.inl (hq.mp hl))
      · exact Or.inr (Or.inr hp)
    · simp only [SchedResponse.isSuccess, Bool.false_eq_true, false_iff]
      simp only [Bool.or_eq_true, decide_eq_true_eq, not_or] at hcond
      rintro (ht | hl | hp)
      · exact hcond.1.1 ht
      · exact hcond.1.2 (hq.mpr hl)
      · exact hcond.2 hp
  · rw [cancel_scheduled_post_state s jid h]
    simp
  · rw [cancel_scheduled_post_state s jid h]
    intro c hc
    simp only [List.mem_filter, Bool.not_eq_true', decide_eq_false_iff_not] at hc
    exact hc.2
  · rw [cancel_scheduled_post_state s jid h]
    exact lookupA_eraseA s.scheduled_posts jid
  · rw [cancel_scheduled_post_state s jid h]
    unfold cancel_scheduled_post
    rw [if_neg h]
    have h1 : (jid ∈ s.timers.filter (fun t => !decide (t = jid))) = False := by
      simp
    have h2 : (s.content_queue.filter (fun c => !decide (c.job_id = jid))).filter
        (fun c => !decide (c.job_id = jid)) =
        s.content_queue.filter (fun c => !decide (c.job_id = jid)) :=
      List.filter_eq_self.mpr (fun a ha => by
        simp only [List.mem_filter] at ha
        exact ha.2)
    have h3 := lookupA_eraseA s.scheduled_posts jid
    simp [h1, h2, h3]

/-- A populated scheduler state: job "a" is registered in the timers, the
queue and `scheduled_posts`. -/
def cancelDemoState : SchedulerState :=
  { content_queue := [{ sampleItem 540 with job_id := "a" }]
    scheduled_posts := [("a", { sampleItem 540 with job_id := "a" })]
    failed_posts := [], publishing_history := [], timers := ["a"] }

/-- Concrete instance of C7: cancelling job "a" succeeds, removes it
everywhere, and cancelling again reports not-found. -/
theorem cancel_scheduled_post_spec_witness :
    ((cancel_scheduled_post cancelDemoState "a").2.isSuccess = true ↔
      ("a" ∈ cancelDemoState.timers ∨
        (∃ c ∈ cancelDemoState.content_queue, c.job_id = "a") ∨
        (lookupA cancelDemoState.scheduled_posts "a").isSome = true)) ∧
    ("a" ∉ (cancel_scheduled_post cancelDemoState "a").1.timers ∧
      (∀ c ∈ (cancel_scheduled_post cancelDemoState "a").1.content_queue,
        c.job_id ≠ "a") ∧
      lookupA (cancel_scheduled_post cancelDemoState "a").1.scheduled_posts
        "a" = none) ∧
    (cancel_scheduled_post (cancel_scheduled_post cancelDemoState "a").1
      "a").2 =
      SchedResponse.error ("Job " ++ "a" ++ " not found in any scheduling system") :=
  cancel_scheduled_post_spec cancelDemoState "a" (by decide)

/-! ## Workflow bookkeeping lemmas -/

/-- Inserting a binding makes it the one the key looks up. -/
theorem lookupA_insertA_self {α : Type} (l : List (String × α)) (k : String)
    (v : α) : lookupA (insertA l k v) k = some v := by
  induction l with
  | nil => simp [insertA, lookupA]
  | cons p l ih =>
    by_cases hp : p.1 = k
    · simp [insertA, lookupA, List.find?_cons, hp]
    · by_cases hf : ((l.find? (fun q => decide (q.1 = k))).isSome : Prop)
      · have : (insertA (p :: l) k v) = p :: insertA l k v := by
          simp [insertA, List.find?_cons, hp, hf]
        rw [this]
        simp only [lookupA, List.find?_cons, hp]
        simpa [lookupA, hp] using ih
      · have : (insertA (p :: l) k v) = p :: insertA l k v := by
          simp [insertA, List.find?_cons, hp, hf]
        rw [this]
        simp only [lookupA, List.find?_cons, hp]
        simpa [lookupA, hp] using ih

/-- `update_workflow_metrics` touches only the metrics. -/
theorem update_workflow_metrics_history (w : WorkflowState) (rid : String)
    (b : Bool) (d : ℚ) (now : ℕ) :
    (update_workflow_metrics w rid b d now).workflow_history =
      w.workflow_history := rfl

/-- `update_workflow_metrics` keeps the current status. -/
theorem update_workflow_metrics_status (w : WorkflowState) (rid : String)
    (b : Bool) (d : ℚ) (now : ℕ) :
    (update_workflow_metrics w rid b d now).current_status =
      w.current_status := rfl

/-- `setStage` never touches the history. -/
theorem setStage_history (w : WorkflowState) (rid : String)
    (st : WorkflowStatus) :
    (setStage w rid st).workflow_history = w.workflow_history := by
  unfold setStage
  dsimp only
  split <;> rfl

/-- `setStage` keeps the current run pointer. -/
theorem setStage_run_id (w : WorkflowState) (rid : String)
    (st : WorkflowStatus) :
    (setStage w rid st).current_run_id = w.current_run_id := by
  unfold setStage
  dsimp only
  split <;> rfl

/-- The appended run survives the 100-entry cap: capping keeps the most
recent entries, and the new run is the most recent. -/
theorem mem_capped_append (hist : List WorkflowRun) (r : WorkflowRun) :
    r ∈ (if historyCap < (hist ++ [r]).length then
      (hist ++ [r]).drop ((hist ++ [r]).length - historyCap)
    else hist ++ [r]) := by
  split
  · next hlen =>
    have hlen2 : (hist ++ [r]).length = hist.length + 1 := by simp
    have hk : (hist ++ [r]).length - historyCap ≤ hist.length := by
      unfold historyCap at *
      omega
    rw [List.drop_append_of_le_length hk]
    simp
  · simp

/-- What `complete_workflow_run` does when the run is active and current:
status becomes `idle`, the current run pointer clears, and the run (stamped
with its outcome) enters the history. -/
theorem complete_workflow_run_found (w : WorkflowState) (rid : String)
    (b : Bool) (run : WorkflowRun)
    (hrun : lookupA w.active_jobs rid = some run)
    (hcur : w.current_run_id = some rid) :
    (complete_workflow_run w rid b).current_status = WorkflowStatus.idle ∧
    (complete_workflow_run w rid b).current_run_id = none ∧
    ({ run with success := some b }) ∈
      (complete_workflow_run w rid b).workflow_history := by
  unfold complete_workflow_run
  rw [hrun]
  dsimp only
  rw [if_pos (show _ = some rid from hcur)]
  exact ⟨rfl, rfl, mem_capped_append w.workflow_history _⟩

/-- What `handle_workflow_failure` does when the run is active and current:
the final observable status is `idle` (the transient `failed` status is
reset by `complete_workflow_run` inside the same call), the returned dict
reports the failed stage with status string "idle", and the run enters the
history marked failed. -/
theorem handle_workflow_failure_spec (w : WorkflowState)
    (rid stage err : String) (now : ℕ) (run : WorkflowRun)
    (hrun : lookupA w.active_jobs rid = some run)
    (hcur : w.current_run_id = some rid) :
    (handle_workflow_failure w rid stage err now).1.current_status =
      WorkflowStatus.idle ∧
    (handle_workflow_failure w rid stage err now).2 =
      PipelineResult.failure rid stage err "idle" ∧
    ({ run with status := "failed", failed_stage := some stage
                error := some err, success := some false }) ∈
      (handle_workflow_failure w rid stage err now).1.workflow_history := by
  unfold handle_workflow_failure
  dsimp only
  rw [hrun]
  dsimp only
  have hc := complete_workflow_run_found
    { w with
        current_status := WorkflowStatus.failed
        active_jobs := insertA w.active_jobs rid
          { run with status := "failed", failed_stage := some stage
                     error := some err } }
    rid false { run with status := "failed", failed_stage := some stage
                         error := some err }
    (lookupA_insertA_self w.active_jobs rid _) hcur
  refine ⟨?_, ?_, ?_⟩
  · rw [update_workflow_metrics_status]
    exact hc.1
  · rw [update_workflow_metrics_status, hc.1]
    rfl
  · rw [update_workflow_metrics_history]
    exact hc.2.2

/-! ## C5: the empty-trend-list scenario -/

/-- C5 (counterexample): running the pipeline from idle with a research
collaborator that succeeds with zero trends does return the research-stage
failure dict, but the workflow status observable after the call is already
`idle`, not `failed` — `complete_workflow_run` resets the status inside
the same call, and even the returned dict's status field says "idle". -/
theorem execute_pipeline_empty_trends_cex :
    (execute_pipeline initialWorkflowState emptyTrendsEnv "r1" 0 false 0).2 =
      PipelineResult.failure "r1" "research" "No trends found" "idle" ∧
    (execute_pipeline initialWorkflowState emptyTrendsEnv
      "r1" 0 false 0).1.current_status = WorkflowStatus.idle ∧
    WorkflowStatus.idle ≠ WorkflowStatus.failed := by
  refine ⟨?_, ?_, by decide⟩ <;> rfl

/-- C5 (amended): from idle, a research collaborator returning success with
an empty trend list makes `execute_pipeline` return the failure dict
`{success: false, failed_stage: "research", error: "No trends found"}`;
the run is recorded in the history with status "failed", and the status
observable after the call is already `idle` (the `failed` status is only
transient within the call). -/
theorem execute_pipeline_empty_trends (w : WorkflowState) (env : Env)
    (rid : String) (now : ℕ) (m : Bool) (dur : ℚ)
    (hidle : w.current_status = WorkflowStatus.idle)
    (hrs : env.researchSuccess = true)
    (hrt : env.researchTrends = []) :
    (execute_pipeline w env rid now m dur).2 =
      PipelineResult.failure rid "research" "No trends found" "idle" ∧
    (execute_pipeline w env rid now m dur).1.current_status =
      WorkflowStatus.idle ∧
    ∃ r ∈ (execute_pipeline w env rid now m dur).1.workflow_history,
      r.run_id = rid ∧ r.status = "failed" ∧
      r.failed_stage = some "research" ∧ r.success = some false := by
  unfold execute_pipeline
  rw [if_pos (Or.inl hidle)]
  dsimp only
  rw [if_neg (by rw [hrs]; intro hcontra; cases hcontra), if_pos hrt]
  have hh := handle_workflow_failure_spec
    { w with
        current_run_id := some rid
        current_status := WorkflowStatus.researching
        active_jobs := insertA w.active_jobs rid
          { run_id := rid, started_at := now, manual_trigger := m
            status := "researching", content_generated := []
            failed_stage := none, error := none, success := none
            completed_at := none, duration_seconds := 0 } }
    rid "research" "No trends found" now _
    (lookupA_insertA_self w.active_jobs rid _) rfl
  exact ⟨hh.2.1, hh.1, ⟨_, hh.2.2, rfl, rfl, rfl, rfl⟩⟩

/-- Concrete instance of C5 (amended) at the initial state. -/
theorem execute_pipeline_empty_trends_witness :
    (execute_pipeline initialWorkflowState emptyTrendsEnv "r9" 7 true 0).2 =
      PipelineResult.failure "r9" "research" "No trends found" "idle" ∧
    (execute_pipeline initialWorkflowState emptyTrendsEnv
      "r9" 7 true 0).1.current_status = WorkflowStatus.idle ∧
    ∃ r ∈ (execute_pipeline initialWorkflowState emptyTrendsEnv
        "r9" 7 true 0).1.workflow_history,
      r.run_id = "r9" ∧ r.status = "failed" ∧
      r.failed_stage = some "research" ∧ r.success = some false :=
  execute_pipeline_empty_trends initialWorkflowState emptyTrendsEnv
    "r9" 7 true 0 rfl rfl rfl

/-- Concrete instance of C6 (amended): with 09:00 and 12:00 occupied and a
free anchor in the searched window, the 17:00 answer is in the future and
outside every conflict window. -/
theorem find_next_available_slot_future_and_safe_witness :
    480 < find_next_available_slot scenarioQueue1 480 ∧
    ∀ c ∈ scenarioQueue1, c.status = Status.scheduled →
      slotWindow ≤ Nat.dist c.scheduled_time
        (find_next_available_slot scenarioQueue1 480) :=
  ⟨(find_next_available_slot_future_and_safe scenarioQueue1 480).1,
   (find_next_available_slot_future_and_safe scenarioQueue1 480).2
     (by decide)⟩

/-! ## C9: evolution of the run history -/

/-- A placeholder run record (used when a branch appends nothing, so that a
single "at most one appended run" statement covers it). -/
def dummyRun : WorkflowRun :=
  { run_id := "", started_at := 0, manual_trigger := false, status := ""
    content_generated := [], failed_stage := none, error := none
    success := none, completed_at := none, duration_seconds := 0 }

/-- A failed run finished at instant 0, and a state holding it as the only
history entry. -/
def staleRun : WorkflowRun :=
  { run_id := "old", started_at := 0, manual_trigger := false
    status := "failed", content_generated := [], failed_stage := some "research"
    error := some "No trends found", success := some false
    completed_at := none, duration_seconds := 0 }

/-- Workflow state whose history holds exactly `staleRun`. -/
def staleHistState : WorkflowState :=
  { initialWorkflowState with workflow_history := [staleRun] }

/-- C9 (counterexample): a failed run sitting in the history is removed by
a later `cleanup_old_workflows` call once it is older than the cleanup age,
so the history is not append-only in the claimed never-removed sense. -/
theorem workflow_history_pruned_cex :
    staleHistState.workflow_history = [staleRun] ∧
    staleRun.success = some false ∧ staleRun.status = "failed" ∧
    (cleanup_old_workflows staleHistState 10000).workflow_history = [] := by
  refine ⟨rfl, rfl, rfl, ?_⟩
  rfl

/-- `complete_workflow_run` leaves the history a sublist of the old history
plus the one stamped run it may append. -/
theorem complete_workflow_run_history_sublist (w : WorkflowState)
    (rid : String) (b : Bool) :
    ∃ r, (complete_workflow_run w rid b).workflow_history <+
      w.workflow_history ++ [r] := by
  unfold complete_workflow_run
  cases hrun : lookupA w.active_jobs rid with
  | none =>
    refine ⟨dummyRun, ?_⟩
    dsimp only
    split <;> exact List.sublist_append_left _ _
  | some run =>
    refine ⟨{ run with success := some b }, ?_⟩
    dsimp only
    split
    · split
      · exact List.drop_sublist _ _
      · exact List.Sublist.refl _
    · split
      · exact List.drop_sublist _ _
      · exact List.Sublist.refl _

/-- `cleanup_old_workflows` retains exactly the history entries newer than
the cutoff (in particular, a sublist of the old history). -/
theorem cleanup_old_workflows_history (w : WorkflowState) (now : ℕ) :
    (cleanup_old_workflows w now).workflow_history =
      w.workflow_history.filter
        (fun r => decide (now - cleanupAgeMinutes < r.started_at)) ∧
    (cleanup_old_workflows w now).workflow_history <+ w.workflow_history := by
  constructor
  · rfl
  · exact List.filter_sublist _

/-- `handle_workflow_failure` changes the history only through
`complete_workflow_run`: at most one run is appended, nothing else. -/
theorem handle_workflow_failure_history (w : WorkflowState)
    (rid stage err : String) (now : ℕ) :
    ∃ r, (handle_workflow_failure w rid stage err now).1.workflow_history <+
      w.workflow_history ++ [r] := by
  unfold handle_workflow_failure
  dsimp only
  have key : ∀ w2 : WorkflowState,
      w2.workflow_history = w.workflow_history →
      ∃ r, (update_workflow_metrics (complete_workflow_run w2 rid false)
        rid false 0 now).workflow_history <+ w.workflow_history ++ [r] := by
    intro w2 h2
    obtain ⟨r, hr⟩ := complete_workflow_run_history_sublist w2 rid false
    rw [update_workflow_metrics_history]
    rw [h2] at hr
    exact ⟨r, hr⟩
  apply key
  split <;> rfl

/-- C9 (amended): every terminal run is appended to the history (verbatim
with its outcome stamped); afterwards entries are only ever evicted whole,
either by the 100-run cap of `complete_workflow_run` or by the age-based
pruning of `cleanup_old_workflows` — no other operation removes or replaces
history entries, and every operation leaves the history a sublist of the
previous history plus at most one newly appended run. -/
theorem workflow_history_evolution :
    (∀ (w : WorkflowState) (rid : String) (b : Bool) (run : WorkflowRun),
      lookupA w.active_jobs rid = some run →
      w.workflow_history.length ≤ 99 →
      (complete_workflow_run w rid b).workflow_history =
        w.workflow_history ++ [{ run with success := some b }]) ∧
    (∀ (w : WorkflowState) (rid : String) (b : Bool),
      ∃ r, (complete_workflow_run w rid b).workflow_history <+
        w.workflow_history ++ [r]) ∧
    (∀ (w : WorkflowState) (now : ℕ),
      (cleanup_old_workflows w now).workflow_history =
        w.workflow_history.filter
          (fun r => decide (now - cleanupAgeMinutes < r.started_at))) ∧
    (∀ (w : WorkflowState) (now : ℕ),
      (cleanup_old_workflows w now).workflow_history <+ w.workflow_history) ∧
    (∀ (w : WorkflowState) (env : Env) (rid : String) (now : ℕ) (m : Bool)
        (dur : ℚ),
      ∃ r, (execute_pipeline w env rid now m dur).1.workflow_history <+
        w.workflow_history ++ [r]) := by
  refine ⟨?_, ?_, ?_, ?_, ?_⟩
  · intro w rid b run hrun hlen
    unfold complete_workflow_run
    rw [hrun]
    dsimp only
    split
    all_goals
      dsimp only
      split
      · rename_i hgt
        exfalso
        rw [List.length_append] at hgt
        simp only [List.length_cons, List.length_nil] at hgt
        unfold historyCap at hgt
        omega
      · rfl
  · exact complete_workflow_run_history_sublist
  · intro w now
    exact (cleanup_old_workflows_history w now).1
  · intro w now
    exact (cleanup_old_workflows_history w now).2
  · intro w env rid now m dur
    unfold execute_pipeline
    split
    · dsimp only
      split
      · exact handle_workflow_failure_history _ rid "research" env.researchError now
      · split
        · exact handle_workflow_failure_history _ rid "research" "No trends found" now
        · split
          · obtain ⟨r, hr⟩ := handle_workflow_failure_history _ rid
              "generation" "No content generated" now
            rw [setStage_history] at hr
            exact ⟨r, hr⟩
          · split
            · obtain ⟨r, hr⟩ := handle_workflow_failure_history _ rid
                "editing" "No content approved" now
              rw [setStage_history, setStage_history] at hr
              exact ⟨r, hr⟩
            · split
              · obtain ⟨r, hr⟩ := handle_workflow_failure_history _ rid
                  "scheduling" "No content scheduled" now
                rw [setStage_history, setStage_history, setStage_history] at hr
                exact ⟨r, hr⟩
              · have key : ∀ w7 : WorkflowState,
                    w7.workflow_history = w.workflow_history →
                    ∃ r, (update_workflow_metrics
                      (complete_workflow_run w7 rid true) rid true dur
                      now).workflow_history <+ w.workflow_history ++ [r] := by
                  intro w7 h7
                  obtain ⟨r, hr⟩ :=
                    complete_workflow_run_history_sublist w7 rid true
                  rw [update_workflow_metrics_history]
                  rw [h7] at hr
                  exact ⟨r, hr⟩
                apply key
                split <;>
                  simp only [setStage_history] <;> rfl
    · exact ⟨dummyRun, List.sublist_append_left _ _⟩

/-- Concrete instance of C9 (amended): completing the only active run of a
small state appends it to the history verbatim. -/
theorem workflow_history_evolution_witness :
    (complete_workflow_run
      { initialWorkflowState with
          active_jobs := [("r1", staleRun)]
          current_run_id := some "r1" }
      "r1" false).workflow_history =
      initialWorkflowState.workflow_history ++
        [{ staleRun with success := some false }] :=
  workflow_history_evolution.1
    { initialWorkflowState with
        active_jobs := [("r1", staleRun)]
        current_run_id := some "r1" }
    "r1" false staleRun (by rfl) (by decide)

/-! ## C3: retry exhaustion and manual retry -/

/-- With distinct job ids, searching for an item's id finds that item. -/
theorem find?_by_job_id (q : List QueuedContent) (item : QueuedContent)
    (hmem : item ∈ q)
    (hnd : (q.map (fun c => c.job_id)).Nodup) :
    q.find? (fun c => decide (c.job_id = item.job_id)) = some item := by
  induction q with
  | nil => cases hmem
  | cons h t ih =>
    rw [List.map_cons, List.nodup_cons] at hnd
    rcases List.mem_cons.mp hmem with rfl | hmem2
    · simp [List.find?_cons]
    · by_cases hh : h.job_id = item.job_id
      · exact absurd (hh ▸ List.mem_map_of_mem (fun c => c.job_id) hmem2)
          hnd.1
      · rw [List.find?_cons_of_neg _ (by simp [hh]), ih hmem2 hnd.2]

/-- Replacing the item carrying `jid` by another item carrying `jid` keeps
the job-id listing unchanged. -/
theorem updateJob_map_job_id (q : List QueuedContent) (jid : String)
    (x : QueuedContent) (hx : x.job_id = jid) :
    (updateJob q jid x).map (fun c => c.job_id) =
      q.map (fun c => c.job_id) := by
  unfold updateJob
  rw [List.map_map]
  apply List.map_congr_left
  intro c hc
  by_cases h : c.job_id = jid
  · simp [Function.comp, h, hx]
  · simp [Function.comp, h]

/-- After an update, the id looks up the replacement item. -/
theorem find?_updateJob (q : List QueuedContent) (jid : String)
    (x item : QueuedContent) (hx : x.job_id = jid)
    (hnd : (q.map (fun c => c.job_id)).Nodup)
    (hfind : q.find? (fun c => decide (c.job_id = jid)) = some item) :
    (updateJob q jid x).find? (fun c => decide (c.job_id = jid)) = some x := by
  have hmemi : item ∈ q := List.mem_of_find?_eq_some hfind
  have hidi : item.job_id = jid := by
    have := List.find?_some hfind
    simpa using this
  have hmemx : x ∈ updateJob q jid x := by
    unfold updateJob
    exact List.mem_map.mpr ⟨item, hmemi, by rw [if_pos hidi]⟩
  have hnd2 : ((updateJob q jid x).map (fun c => c.job_id)).Nodup := by
    rw [updateJob_map_job_id q jid x hx]
    exact hnd
  have hres := find?_by_job_id (updateJob q jid x) x hmemx hnd2
  rw [hx] at hres
  exact hres

/-- Two successive updates of the same id collapse to the second. -/
theorem updateJob_updateJob (q : List QueuedContent) (jid : String)
    (a b : QueuedContent) (ha : a.job_id = jid) :
    updateJob (updateJob q jid a) jid b = updateJob q jid b := by
  unfold updateJob
  rw [List.map_map]
  apply List.map_congr_left
  intro c hc
  by_cases h : c.job_id = jid
  · simp [Function.comp, h, ha]
  · simp [Function.comp, h]

/-- Dropping the id after updating it equals dropping it outright. -/
theorem filter_ne_updateJob (q : List QueuedContent) (jid : String)
    (x : QueuedContent) (hx : x.job_id = jid) :
    (updateJob q jid x).filter (fun c => !decide (c.job_id = jid)) =
      q.filter (fun c => !decide (c.job_id = jid)) := by
  unfold updateJob
  induction q with
  | nil => rfl
  | cons h t ih =>
    by_cases hh : h.job_id = jid
    · simp [List.filter_cons, hh, hx, ih]
    · simp [List.filter_cons, hh, ih]

/-- A freshly registered timer id is registered. -/
theorem mem_addTimer (ts : List String) (jid : String) :
    jid ∈ addTimer ts jid := by
  unfold addTimer
  split
  · assumption
  · simp

/-- Registering a timer keeps the previously registered ones. -/
theorem mem_addTimer_of_mem (ts : List String) (jid t : String)
    (h : t ∈ ts) : t ∈ addTimer ts jid := by
  unfold addTimer
  split
  · exact h
  · exact List.mem_append_left _ h

/-- A failed publish attempt below the retry budget: the queue item is
re-marked `retry_scheduled` with its retry count bumped, and the derived
retry timer is registered; queue membership, `failed_posts` and
`scheduled_posts` are untouched. -/
theorem execute_publishing_fail_retry (s : SchedulerState)
    (item : QueuedContent) (jid : String) (hid : item.job_id = jid)
    (hnd : (s.content_queue.map (fun c => c.job_id)).Nodup)
    (hfind : s.content_queue.find? (fun c => decide (c.job_id = jid)) =
      some item)
    (hrc : item.retry_count + 1 < retryAttempts) :
    execute_scheduled_publishing s jid false =
      { s with
          content_queue := updateJob s.content_queue jid
            { item with status := Status.retry_scheduled
                        retry_count := item.retry_count + 1 }
          timers := addTimer s.timers
            (jid ++ "_retry_" ++ toString (item.retry_count + 1)) } := by
  unfold execute_scheduled_publishing
  rw [hfind]
  dsimp only
  unfold handle_publishing_failure
  rw [find?_updateJob s.content_queue jid
    { item with status := Status.publishing } item hid hnd hfind]
  dsimp only
  rw [if_pos (show (({ item with status := Status.publishing } :
    QueuedContent).retry_count + 1) < retryAttempts from hrc)]
  rw [updateJob_updateJob s.content_queue jid
    { item with status := Status.publishing } _ hid]
  rfl

/-- A failed publish attempt that exhausts the retry budget: the item moves
to `failed_posts` with status `failed`, leaves the live queue, and its
binding in `scheduled_posts` is erased. -/
theorem execute_publishing_fail_permanent (s : SchedulerState)
    (item : QueuedContent) (jid : String) (hid : item.job_id = jid)
    (hnd : (s.content_queue.map (fun c => c.job_id)).Nodup)
    (hfind : s.content_queue.find? (fun c => decide (c.job_id = jid)) =
      some item)
    (hrc : ¬ item.retry_count + 1 < retryAttempts) :
    execute_scheduled_publishing s jid false =
      { s with
          content_queue := s.content_queue.filter
            (fun c => !decide (c.job_id = jid))
          failed_posts := s.failed_posts ++
            [{ item with status := Status.failed
                         retry_count := item.retry_count + 1 }]
          scheduled_posts := eraseA s.scheduled_posts jid } := by
  unfold execute_scheduled_publishing
  rw [hfind]
  dsimp only
  unfold handle_publishing_failure
  rw [find?_updateJob s.content_queue jid
    { item with status := Status.publishing } item hid hnd hfind]
  dsimp only
  rw [if_neg (show ¬ (({ item with status := Status.publishing } :
    QueuedContent).retry_count + 1) < retryAttempts from hrc)]
  rw [filter_ne_updateJob s.content_queue jid
    { item with status := Status.publishing } hid]
  rfl

/-- The retry loop only ever appends to the live queue. -/
theorem foldl_retryStep_queue_ext (now : ℕ) (l : List QueuedContent)
    (acc : SchedulerState) :
    ∃ ext, (l.foldl (retryStep now) acc).content_queue =
      acc.content_queue ++ ext := by
  induction l generalizing acc with
  | nil => exact ⟨[], by simp⟩
  | cons x l ih =>
    obtain ⟨ext, hext⟩ := ih (retryStep now acc x)
    refine ⟨{ x with retry_count := 0, status := Status.scheduled,
                     scheduled_time :=
                       find_next_available_slot acc.content_queue now } ::
      ext, ?_⟩
    rw [List.foldl_cons, hext]
    simp [retryStep]

/-- The retry loop never unregisters a timer. -/
theorem foldl_retryStep_timers_mono (now : ℕ) (l : List QueuedContent)
    (acc : SchedulerState) (t : String) (h : t ∈ acc.timers) :
    t ∈ (l.foldl (retryStep now) acc).timers := by
  induction l generalizing acc with
  | nil => exact h
  | cons x l ih =>
    exact ih (retryStep now acc x) (mem_addTimer_of_mem _ _ _ h)

/-- The retry loop does not touch the permanent-failure list (the caller
clears it afterwards). -/
theorem foldl_retryStep_failed (now : ℕ) (l : List QueuedContent)
    (acc : SchedulerState) :
    (l.foldl (retryStep now) acc).failed_posts = acc.failed_posts := by
  induction l generalizing acc with
  | nil => rfl
  | cons x l ih => exact ih (retryStep now acc x)

/-- Every post fed to the retry loop ends up re-enqueued as a `scheduled`
item with retry count 0 and its manual-retry timer registered. -/
theorem mem_foldl_retryStep (now : ℕ) (l : List QueuedContent)
    (acc : SchedulerState) (fp : QueuedContent) (hfp : fp ∈ l) :
    (∃ c ∈ (l.foldl (retryStep now) acc).content_queue,
      c.job_id = fp.job_id ∧ c.status = Status.scheduled ∧
      c.retry_count = 0) ∧
    (fp.job_id ++ "_manual_retry") ∈ (l.foldl (retryStep now) acc).timers := by
  induction l generalizing acc with
  | nil => cases hfp
  | cons x l ih =>
    rcases List.mem_cons.mp hfp with rfl | hfp2
    · constructor
      · obtain ⟨ext, hext⟩ := foldl_retryStep_queue_ext now l (retryStep now acc fp)
        refine ⟨{ fp with retry_count := 0, status := Status.scheduled,
                          scheduled_time :=
                            find_next_available_slot acc.content_queue now },
          ?_, rfl, rfl, rfl⟩
        rw [List.foldl_cons, hext]
        apply List.mem_append_left
        simp [retryStep]
      · rw [List.foldl_cons]
        exact foldl_retryStep_timers_mono now l (retryStep now acc fp) _
          (mem_addTimer _ _)
    · rw [List.foldl_cons]
      exact ih (retryStep now acc x) hfp2

/-- `retry_failed_posts` empties the permanent-failure list and re-enqueues
every permanently failed post as `scheduled` with retry count 0, with its
manual-retry timer registered. -/
theorem retry_failed_posts_spec (t : SchedulerState) (now : ℕ) :
    (retry_failed_posts t now).failed_posts = [] ∧
    ∀ fp ∈ t.failed_posts,
      (∃ c ∈ (retry_failed_posts t now).content_queue,
        c.job_id = fp.job_id ∧ c.status = Status.scheduled ∧
        c.retry_count = 0) ∧
      (fp.job_id ++ "_manual_retry") ∈ (retry_failed_posts t now).timers := by
  unfold retry_failed_posts
  by_cases hne : t.failed_posts = []
  · rw [if_pos hne]
    refine ⟨hne, ?_⟩
    intro fp hfp
    rw [hne] at hfp
    cases hfp
  · rw [if_neg hne]
    refine ⟨rfl, ?_⟩
    intro fp hfp
    exact mem_foldl_retryStep now t.failed_posts t fp hfp

/-- Three consecutive publish failures of the same job (each timer firing
followed by a failed publish attempt). -/
def failThreeTimes (s : SchedulerState) (jid : String) : SchedulerState :=
  execute_scheduled_publishing (execute_scheduled_publishing
    (execute_scheduled_publishing s jid false) jid false) jid false

/-- C3: a `scheduled` item with retry count 0 that fails publishing exactly
`max_retries = 3` times ends on the permanent-failure list with status
`failed` and retry count 3, gone from the live queue and from
`scheduled_posts`; a subsequent `retry_failed_posts` call re-enqueues it
with status `scheduled` and retry count 0 at a fresh slot from the slot
allocator, registers its manual-retry timer, and empties the
permanent-failure list — and in general `retry_failed_posts` does this for
every permanently failed post of any state. -/
theorem publish_failure_retry_cycle (s : SchedulerState)
    (item : QueuedContent) (jid : String) (now : ℕ)
    (hid : item.job_id = jid)
    (hmem : item ∈ s.content_queue)
    (hnd : (s.content_queue.map (fun c => c.job_id)).Nodup)
    (hst : item.status = Status.scheduled)
    (hrc : item.retry_count = 0)
    (hfp : s.failed_posts = []) :
    (∀ c ∈ (failThreeTimes s jid).content_queue, c.job_id ≠ jid) ∧
    (failThreeTimes s jid).failed_posts =
      [{ item with status := Status.failed, retry_count := 3 }] ∧
    lookupA (failThreeTimes s jid).scheduled_posts jid = none ∧
    (retry_failed_posts (failThreeTimes s jid) now).failed_posts = [] ∧
    (retry_failed_posts (failThreeTimes s jid) now).content_queue =
      (failThreeTimes s jid).content_queue ++
        [{ item with status := Status.scheduled
                     retry_count := 0
                     scheduled_time := find_next_available_slot
                       (failThreeTimes s jid).content_queue now }] ∧
    (jid ++ "_manual_retry") ∈
      (retry_failed_posts (failThreeTimes s jid) now).timers ∧
    (∀ (t : SchedulerState) (n : ℕ),
      (retry_failed_posts t n).failed_posts = [] ∧
      ∀ fp ∈ t.failed_posts,
        (∃ c ∈ (retry_failed_posts t n).content_queue,
          c.job_id = fp.job_id ∧ c.status = Status.scheduled ∧
          c.retry_count = 0) ∧
        (fp.job_id ++ "_manual_retry") ∈ (retry_failed_posts t n).timers) := by
  have hfind1 : s.content_queue.find? (fun c => decide (c.job_id = jid)) =
      some item := by
    rw [← hid]
    exact find?_by_job_id s.content_queue item hmem hnd
  have h1 := execute_publishing_fail_retry s item jid hid hnd hfind1
    (by rw [hrc]; decide)
  have hnd1 : ((updateJob s.content_queue jid
      { item with status := Status.retry_scheduled
                  retry_count := item.retry_count + 1 }).map
      (fun c => c.job_id)).Nodup := by
    rw [updateJob_map_job_id s.content_queue jid
      { item with status := Status.retry_scheduled
                  retry_count := item.retry_count + 1 } hid]
    exact hnd
  have hfind2 := find?_updateJob s.content_queue jid
    { item with status := Status.retry_scheduled
                retry_count := item.retry_count + 1 } item hid hnd hfind1
  have h2 := execute_publishing_fail_retry
    { s with
        content_queue := updateJob s.content_queue jid
          { item with status := Status.retry_scheduled
                      retry_count := item.retry_count + 1 }
        timers := addTimer s.timers
          (jid ++ "_retry_" ++ toString (item.retry_count + 1)) }
    { item with status := Status.retry_scheduled
                retry_count := item.retry_count + 1 }
    jid hid hnd1 hfind2
    (by show item.retry_count + 1 + 1 < retryAttempts; rw [hrc]; decide)
  have hnd2 : ((updateJob (updateJob s.content_queue jid
      { item with status := Status.retry_scheduled
                  retry_count := item.retry_count + 1 }) jid
      { item with status := Status.retry_scheduled
                  retry_count := item.retry_count + 1 + 1 }).map
      (fun c => c.job_id)).Nodup := by
    rw [updateJob_map_job_id _ jid
      { item with status := Status.retry_scheduled
                  retry_count := item.retry_count + 1 + 1 } hid]
    exact hnd1
  have hfind3 := find?_updateJob (updateJob s.content_queue jid
      { item with status := Status.retry_scheduled
                  retry_count := item.retry_count + 1 }) jid
    { item with status := Status.retry_scheduled
                retry_count := item.retry_count + 1 + 1 }
    { item with status := Status.retry_scheduled
                retry_count := item.retry_count + 1 } hid hnd1 hfind2
  have h3 := execute_publishing_fail_permanent
    { s with
        content_queue := updateJob (updateJob s.content_queue jid
          { item with status := Status.retry_scheduled
                      retry_count := item.retry_count + 1 }) jid
          { item with status := Status.retry_scheduled
                      retry_count := item.retry_count + 1 + 1 }
        timers := addTimer (addTimer s.timers
            (jid ++ "_retry_" ++ toString (item.retry_count + 1)))
          (jid ++ "_retry_" ++ toString (item.retry_count + 1 + 1)) }
    { item with status := Status.retry_scheduled
                retry_count := item.retry_count + 1 + 1 }
    jid hid hnd2 hfind3
    (by show ¬ item.retry_count + 1 + 1 + 1 < retryAttempts
        unfold retryAttempts
        omega)
  have hEq3 : failThreeTimes s jid =
      { s with
          content_queue := (updateJob (updateJob s.content_queue jid
            { item with status := Status.retry_scheduled
                        retry_count := item.retry_count + 1 }) jid
            { item with status := Status.retry_scheduled
                        retry_count := item.retry_count + 1 + 1 }).filter
            (fun c => !decide (c.job_id = jid))
          failed_posts := s.failed_posts ++
            [{ item with status := Status.failed
                         retry_count := item.retry_count + 1 + 1 + 1 }]
          scheduled_posts := eraseA s.scheduled_posts jid
          timers := addTimer (addTimer s.timers
              (jid ++ "_retry_" ++ toString (item.retry_count + 1)))
            (jid ++ "_retry_" ++ toString (item.retry_count + 1 + 1)) } := by
    unfold failThreeTimes
    rw [h1, h2, h3]
  have hb : (failThreeTimes s jid).failed_posts =
      [{ item with status := Status.failed, retry_count := 3 }] := by
    rw [hEq3]
    show s.failed_posts ++
      [{ item with status := Status.failed
                   retry_count := item.retry_count + 1 + 1 + 1 }] = _
    rw [hfp, hrc]
    rfl
  have hretry : retry_failed_posts (failThreeTimes s jid) now =
      { retryStep now (failThreeTimes s jid)
          { item with status := Status.failed, retry_count := 3 } with
        failed_posts := [] } := by
    unfold retry_failed_posts
    rw [hb]
    rw [if_neg (by simp)]
    rw [List.foldl_cons, List.foldl_nil]
  refine ⟨?_, hb, ?_, ?_, ?_, ?_, ?_⟩
  · intro c hc
    rw [hEq3] at hc
    have hc2 : c ∈ (updateJob (updateJob s.content_queue jid
        { item with status := Status.retry_scheduled
                    retry_count := item.retry_count + 1 }) jid
        { item with status := Status.retry_scheduled
                    retry_count := item.retry_count + 1 + 1 }).filter
        (fun c => !decide (c.job_id = jid)) := hc
    simp only [List.mem_filter, Bool.not_eq_true', decide_eq_false_iff_not]
      at hc2
    exact hc2.2
  · rw [hEq3]
    exact lookupA_eraseA s.scheduled_posts jid
  · rw [hretry]
  · rw [hretry]
    rfl
  · rw [hretry, ← hid]
    exact mem_addTimer _ _
  · intro t n
    exact retry_failed_posts_spec t n

/-- Scheduler state with one scheduled item (job "x" at 09:00, retry count
0) tracked in all three structures. -/
def retryDemoState : SchedulerState :=
  { content_queue := [sampleItem 540]
    scheduled_posts := [("x", sampleItem 540)]
    failed_posts := [], publishing_history := [], timers := ["x"] }

/-- Concrete instance of C3: job "x" fails three times, lands in the
permanent-failure list with retry count 3, is gone from the queue and
`scheduled_posts`, and `retry_failed_posts` re-enqueues it afresh. -/
theorem publish_failure_retry_cycle_witness :
    (failThreeTimes retryDemoState "x").failed_posts =
      [{ sampleItem 540 with status := Status.failed, retry_count := 3 }] ∧
    lookupA (failThreeTimes retryDemoState "x").scheduled_posts "x" = none ∧
    (retry_failed_posts (failThreeTimes retryDemoState "x") 600).failed_posts
      = [] ∧
    (retry_failed_posts (failThreeTimes retryDemoState "x") 600).content_queue
      = (failThreeTimes retryDemoState "x").content_queue ++
        [{ sampleItem 540 with
             status := Status.scheduled
             retry_count := 0
             scheduled_time := find_next_available_slot
               (failThreeTimes retryDemoState "x").content_queue 600 }] ∧
    ("x" ++ "_manual_retry") ∈
      (retry_failed_posts (failThreeTimes retryDemoState "x") 600).timers :=
  ⟨(publish_failure_retry_cycle retryDemoState (sampleItem 540) "x" 600
      rfl (by decide) (by decide) rfl rfl rfl).2.1,
   (publish_failure_retry_cycle retryDemoState (sampleItem 540) "x" 600
      rfl (by decide) (by decide) rfl rfl rfl).2.2.1,
   (publish_failure_retry_cycle retryDemoState (sampleItem 540) "x" 600
      rfl (by decide) (by decide) rfl rfl rfl).2.2.2.1,
   (publish_failure_retry_cycle retryDemoState (sampleItem 540) "x" 600
      rfl (by decide) (by decide) rfl rfl rfl).2.2.2.2.1,
   (publish_failure_retry_cycle retryDemoState (sampleItem 540) "x" 600
      rfl (by decide) (by decide) rfl rfl rfl).2.2.2.2.2.1⟩

end SmartTrade
